import Mathlib

/-!
Shallow embedding of src/server.py (reborn-voice-server).

The program is a single HTTP handler, upload_audio, that
1. guards against a missing file part,
2. persists the uploaded clip to a unique temporary file whose suffix is
   derived from the declared filename,
3. runs the Whisper transcription in a worker thread under a 60 second
   timeout,
4. calls the OpenAI chat completion under a 40 second timeout, mapping every
   failure class to a fixed fallback string,
5. best-effort sends the reply over OSC/UDP, and
6. always removes the temporary file in a finally block, swallowing removal
   failures.

External collaborators (tempfile creation, disk writes, the Whisper call,
the OpenAI call, the OSC socket, os.remove) are modelled by an environment
Env recording which outcome each of them produces for the request under
consideration.  The handler itself is embedded as a pure function from the
optional file part and the environment to the pair of its result (an
HTTP response, or a propagated exception) and the observable side effects.
-/

namespace RebornVoiceServer

/-- Helper for rfind: index of the last occurrence of a character,
scanning from position i. -/
def rfindAux (c : Char) : List Char → Nat → Option Nat
  | [], _ => none
  | x :: xs, i =>
    match rfindAux c xs (i + 1) with
    | some j => some j
    | none => if x = c then some i else none

/-- Python str.rfind restricted to a single character: the index of the last
occurrence, or none where Python returns -1. -/
def rfind (c : Char) (l : List Char) : Option Nat :=
  rfindAux c l 0

/-- CPython posixpath.splitext (genericpath._splitext with sep slash, no
altsep, extsep dot): split a path into root and extension.  The extension is
everything from the last dot of the basename on, provided some earlier
character of the basename is not a dot. -/
def splitext (p : String) : String × String :=
  let l := p.toList
  match rfind '.' l with
  | none => (p, "")
  | some d =>
    let start := match rfind '/' l with
      | none => 0
      | some s => s + 1
    if start ≤ d then
      if ((l.drop start).take (d - start)).any (fun ch => ch != '.') then
        (String.mk (l.take d), String.mk (l.drop d))
      else (p, "")
    else (p, "")

/-- Line 59 of server.py: the suffix of the temporary file is the extension
of the declared filename (empty string when absent), or .webm when that
extension is empty. -/
def suffixFor (filename : Option String) : String :=
  let ext := (splitext (filename.getD "")).2
  if ext = "" then ".webm" else ext

/-- The transcription backend result, line 76: model.transcribe(path) may
return None (outer none) or a mapping that may lack the text key (inner
none). -/
abbrev WhisperResult := Option (Option String)

/-- The ASCII whitespace characters removed by Python str.strip with no
argument (space, tab, newline, carriage return, vertical tab, form feed). -/
def isPySpace (c : Char) : Bool :=
  c = ' ' || c = '\t' || c = '\n' || c = '\r' ||
    c = Char.ofNat 11 || c = Char.ofNat 12

/-- Python str.strip with no argument: remove leading and trailing
whitespace. -/
def pyStrip (s : String) : String :=
  String.mk
    (((s.toList.dropWhile isPySpace).reverse.dropWhile isPySpace).reverse)

/-- Lines 74-77 of server.py, function do_transcribe: the expression
(result or \x7b\x7d).get( text key, empty default ).strip(). -/
def do_transcribe (result : WhisperResult) : String :=
  pyStrip ((result.getD none).getD "")

/-- An apostrophe character, to spell the fallback strings exactly. -/
def apos : String := String.singleton (Char.ofNat 39)

/-- Line 102 of server.py: fallback on RateLimitError. -/
def rateLimitedMsg : String :=
  "I" ++ apos ++ "m being rate-limited right now. Please try again in a moment."

/-- Lines 104 and 109 of server.py: fallback on APITimeoutError and on
asyncio.TimeoutError. -/
def timeoutMsg : String :=
  "The AI took too long to respond. Let" ++ apos ++ "s try again."

/-- Line 107 of server.py: fallback on APIError. -/
def apiErrorMsg : String := "I hit an API error. Please try again."

/-- Line 113 of server.py: fallback on any other exception. -/
def unknownErrorMsg : String := "Something went wrong generating a reply."

/-- Outcome of the awaited transcription call, lines 79-86: asyncio timeout,
any other exception, or success carrying the raw backend result. -/
inductive TranscribeOutcome where
  | timeout : TranscribeOutcome
  | failure : TranscribeOutcome
  | success (result : WhisperResult) : TranscribeOutcome
  deriving DecidableEq

/-- Outcome of the awaited completion call, lines 91-113: the exception
classes caught there, or success carrying the optional message content of
choice zero. -/
inductive CompletionOutcome where
  | success (content : Option String) : CompletionOutcome
  | rateLimit : CompletionOutcome
  | apiTimeout : CompletionOutcome
  | apiError : CompletionOutcome
  | asyncTimeout : CompletionOutcome
  | unknownFailure : CompletionOutcome
  deriving DecidableEq

/-- Lines 91-113: the value of the gpt output variable after the try block,
as a function of the completion call outcome. -/
def completionOutput : CompletionOutcome → String
  | CompletionOutcome.success content => pyStrip (content.getD "")
  | CompletionOutcome.rateLimit => rateLimitedMsg
  | CompletionOutcome.apiTimeout => timeoutMsg
  | CompletionOutcome.apiError => apiErrorMsg
  | CompletionOutcome.asyncTimeout => timeoutMsg
  | CompletionOutcome.unknownFailure => unknownErrorMsg

/-- Lines 89-113 as a whole: the gpt output is the empty string when the
transcript is empty (the completion stage is skipped), else the value the
completion try block assigns. -/
def gptOutputOf (text : String) (c : CompletionOutcome) : String :=
  if text = "" then "" else completionOutput c

/-- The uploaded file part: declared filename and body bytes. -/
structure UploadFile where
  filename : Option String
  content : List Nat
  deriving DecidableEq

/-- Environment of one request: which outcome each external collaborator
produces.  createFails: NamedTemporaryFile raises.  writeFails: reading or
writing the body raises inside the try block.  transcribe and completion:
the awaited call outcomes.  oscConfigured: the module-level SimpleUDPClient
construction succeeded (osc client is not None).  oscSendFails:
send underscore message raises.  removeFails: os.remove raises. -/
structure Env where
  createFails : Bool
  writeFails : Bool
  transcribe : TranscribeOutcome
  completion : CompletionOutcome
  oscConfigured : Bool
  oscSendFails : Bool
  removeFails : Bool
  deriving DecidableEq

/-- Replace only the broadcast-related fields of an environment. -/
def setBroadcast : Env → Bool → Bool → Env
  | ⟨c, w, t, comp, _, _, r⟩, conf, fails => ⟨c, w, t, comp, conf, fails, r⟩

/-- A JSON response body: either an error object with one error field, or
the success object with transcription and gpt output fields (line 122). -/
inductive Body where
  | failure (msg : String) : Body
  | ok (transcription : String) (gpt_output : String) : Body
  deriving DecidableEq

/-- An HTTP response: status code and JSON body. -/
structure Response where
  status : Nat
  body : Body
  deriving DecidableEq

instance : DecidableEq (Except String Response) := fun a b =>
  match a, b with
  | Except.ok x, Except.ok y =>
    if h : x = y then isTrue (by rw [h]) else isFalse (by simp [h])
  | Except.error x, Except.error y =>
    if h : x = y then isTrue (by rw [h]) else isFalse (by simp [h])
  | Except.ok _, Except.error _ => isFalse (by simp)
  | Except.error _, Except.ok _ => isFalse (by simp)

/-- Observable side effects of one request.  tempCreated and tempSuffix:
whether the temporary file was created and with which suffix.  written: the
bytes streamed to it.  removeCalls: how many times os.remove was invoked on
it.  removeRaised: whether a removal failure escaped to the caller.
removeSucceeded: whether os.remove succeeded.  completionCalled: whether the
completion endpoint was invoked.  oscCall: the OSC address and payload of
the datagram send when one was issued.  oscSendFailedLogged: whether a send
failure was caught and logged. -/
structure Effects where
  tempCreated : Bool
  tempSuffix : Option String
  written : List Nat
  removeCalls : Nat
  removeRaised : Bool
  removeSucceeded : Bool
  completionCalled : Bool
  oscCall : Option (String × String)
  oscSendFailedLogged : Bool
  deriving DecidableEq

/-- The effects of a request that never created a temporary file. -/
def noEffects : Effects :=
  ⟨false, none, [], 0, false, false, false, none, false⟩

/-- Intermediate outcome of the try block, lines 62-122: the result (a response,
or a propagated exception), plus the effects accumulated inside it. -/
structure TryOutcome where
  result : Except String Response
  written : List Nat
  completionCalled : Bool
  oscCall : Option (String × String)
  oscSendFailedLogged : Bool

/-- Lines 62-122 of server.py: stream the body to the temporary file, await
the transcription (returning 504 on timeout, 500 on any other failure),
compute the gpt output (empty transcript skips the completion stage,
completion failures map to fixed fallback strings), best-effort send one OSC
datagram when a client exists and the gpt output is non-empty, and return
the 200 body. -/
def tryBlock (f : UploadFile) (env : Env) : TryOutcome :=
  if env.writeFails then
    ⟨Except.error "io error while persisting upload", [], false, none, false⟩
  else
    match env.transcribe with
    | TranscribeOutcome.timeout =>
      ⟨Except.ok ⟨504, Body.failure "transcription_timeout"⟩, f.content, false, none, false⟩
    | TranscribeOutcome.failure =>
      ⟨Except.ok ⟨500, Body.failure "transcription_failed"⟩, f.content, false, none, false⟩
    | TranscribeOutcome.success result =>
      let text := do_transcribe result
      let gpt := gptOutputOf text env.completion
      let oscCall :=
        if env.oscConfigured then
          if gpt = "" then none else some ("/chat_output", gpt)
        else none
      ⟨Except.ok ⟨200, Body.ok text gpt⟩, f.content,
        if text = "" then false else true,
        oscCall,
        oscCall.isSome && env.oscSendFails⟩

/-- Lines 45-129 of server.py, the upload audio handler: the 400 guard for a
missing file part, temporary file creation with the computed suffix, the try
block above, and the finally block that always calls os.remove exactly once
and swallows its failure. -/
def upload_audio (file : Option UploadFile) (env : Env) :
    Except String Response × Effects :=
  match file with
  | none => (Except.ok ⟨400, Body.failure "no_file"⟩, noEffects)
  | some f =>
    if env.createFails then
      (Except.error "tempfile creation failed", noEffects)
    else
      let t := tryBlock f env
      (t.result,
        ⟨true, some (suffixFor f.filename), t.written, 1, false,
          !env.removeFails, t.completionCalled, t.oscCall,
          t.oscSendFailedLogged⟩)

/-- Claim C1: for every request in which the temporary file is created, the
handler invokes the removal of that file exactly once at request end, on
every exit path (success, 504 timeout, 500 failure, or any exception raised
after creation), and a failure of the removal itself never raises to the
caller. -/
theorem temp_removed_exactly_once (file : Option UploadFile) (env : Env)
    (h : (upload_audio file env).2.tempCreated = true) :
    (upload_audio file env).2.removeCalls = 1 ∧
    (upload_audio file env).2.removeRaised = false := by
  cases file with
  | none => simp [upload_audio, noEffects] at h
  | some f =>
    cases hc : env.createFails with
    | true => simp [upload_audio, hc, noEffects] at h
    | false => simp [upload_audio, hc]

theorem temp_removed_exactly_once_w :
    (upload_audio (some ⟨some "a.webm", [1]⟩)
        ⟨false, false, TranscribeOutcome.timeout,
          CompletionOutcome.rateLimit, false, false, true⟩).2.removeCalls = 1 ∧
    (upload_audio (some ⟨some "a.webm", [1]⟩)
        ⟨false, false, TranscribeOutcome.timeout,
          CompletionOutcome.rateLimit, false, false, true⟩).2.removeRaised
      = false :=
  temp_removed_exactly_once _ _ rfl

/-- Claim C2: for a non-empty transcript the completion stage never
propagates an error out of its boundary: whatever the completion outcome,
the response is a 200 carrying the transcript and completionOutput of that
outcome as gpt output, and the failure outcomes map to exactly the fixed
fallback strings. -/
theorem completion_never_propagates (f : UploadFile) (env : Env)
    (r : WhisperResult)
    (hc : env.createFails = false) (hw : env.writeFails = false)
    (ht : env.transcribe = TranscribeOutcome.success r)
    (hne : do_transcribe r ≠ "") :
    (upload_audio (some f) env).1 =
      Except.ok ⟨200, Body.ok (do_transcribe r)
        (completionOutput env.completion)⟩ ∧
    completionOutput CompletionOutcome.rateLimit = rateLimitedMsg ∧
    completionOutput CompletionOutcome.apiTimeout = timeoutMsg ∧
    completionOutput CompletionOutcome.asyncTimeout = timeoutMsg ∧
    completionOutput CompletionOutcome.apiError = apiErrorMsg ∧
    completionOutput CompletionOutcome.unknownFailure = unknownErrorMsg := by
  refine ⟨?_, rfl, rfl, rfl, rfl, rfl⟩
  simp [upload_audio, hc, tryBlock, hw, ht, gptOutputOf, hne]

theorem completion_never_propagates_w :
    (upload_audio (some ⟨some "a.webm", []⟩)
        ⟨false, false, TranscribeOutcome.success (some (some "hello")),
          CompletionOutcome.rateLimit, true, false, false⟩).1 =
      Except.ok ⟨200, Body.ok (do_transcribe (some (some "hello")))
        (completionOutput CompletionOutcome.rateLimit)⟩ :=
  (completion_never_propagates _ _ _ rfl rfl rfl (by decide)).1

/-- Claim C3: once the upload is persisted, a transcription timeout yields a
504 with error transcription_timeout, any other transcription failure yields
a 500 with error transcription_failed, and in both cases the completion
endpoint is never invoked. -/
theorem transcription_errors_short_circuit (f : UploadFile) (env : Env)
    (hc : env.createFails = false) (hw : env.writeFails = false) :
    (env.transcribe = TranscribeOutcome.timeout →
      (upload_audio (some f) env).1 =
        Except.ok ⟨504, Body.failure "transcription_timeout"⟩ ∧
      (upload_audio (some f) env).2.completionCalled = false) ∧
    (env.transcribe = TranscribeOutcome.failure →
      (upload_audio (some f) env).1 =
        Except.ok ⟨500, Body.failure "transcription_failed"⟩ ∧
      (upload_audio (some f) env).2.completionCalled = false) := by
  constructor <;> intro ht <;> simp [upload_audio, hc, tryBlock, hw, ht]

theorem transcription_errors_short_circuit_w :
    (upload_audio (some ⟨none, []⟩)
        ⟨false, false, TranscribeOutcome.timeout,
          CompletionOutcome.unknownFailure, true, false, false⟩).1 =
      Except.ok ⟨504, Body.failure "transcription_timeout"⟩ ∧
    (upload_audio (some ⟨none, []⟩)
        ⟨false, false, TranscribeOutcome.failure,
          CompletionOutcome.unknownFailure, true, false, false⟩).1 =
      Except.ok ⟨500, Body.failure "transcription_failed"⟩ :=
  ⟨((transcription_errors_short_circuit _ _ rfl rfl).1 rfl).1,
    ((transcription_errors_short_circuit _ _ rfl rfl).2 rfl).1⟩

/-- Claim C4: when transcription succeeds with an empty transcript, the
completion stage is skipped, the completion result is the empty string, and
the response is a 200 with empty transcription and empty gpt output. -/
theorem empty_transcript_skips_completion (f : UploadFile) (env : Env)
    (r : WhisperResult)
    (hc : env.createFails = false) (hw : env.writeFails = false)
    (ht : env.transcribe = TranscribeOutcome.success r)
    (he : do_transcribe r = "") :
    (upload_audio (some f) env).1 = Except.ok ⟨200, Body.ok "" ""⟩ ∧
    (upload_audio (some f) env).2.completionCalled = false := by
  simp [upload_audio, hc, tryBlock, hw, ht, gptOutputOf, he]

theorem empty_transcript_skips_completion_w :
    (upload_audio (some ⟨some "x.wav", []⟩)
        ⟨false, false, TranscribeOutcome.success (some (some "  ")),
          CompletionOutcome.rateLimit, true, false, false⟩).1 =
      Except.ok ⟨200, Body.ok "" ""⟩ :=
  (empty_transcript_skips_completion _ _ _ rfl rfl rfl (by decide)).1

/-- Claim C5: the broadcast stage never alters the response: the result of
the handler is the same whatever the availability of the OSC client and
whatever the outcome of the datagram send. -/
theorem broadcast_never_alters_response (file : Option UploadFile)
    (env : Env) (c₁ f₁ c₂ f₂ : Bool) :
    (upload_audio file (setBroadcast env c₁ f₁)).1 =
      (upload_audio file (setBroadcast env c₂ f₂)).1 := by
  cases env with
  | mk c w t comp oc os rm =>
    cases file with
    | none => rfl
    | some f => cases c <;> cases w <;> cases t <;> rfl

/-- Claim C6: a request with no file part yields a 400 with error no_file
and produces no side effect. -/
theorem no_file_yields_400 (env : Env) :
    upload_audio none env =
      (Except.ok ⟨400, Body.failure "no_file"⟩, noEffects) := rfl

/-- Claim C7: the temporary file suffix equals the extension of the declared
filename when that extension is non-empty, and .webm otherwise (in
particular when the filename is absent); and the temporary file created by
the handler carries exactly this suffix. -/
theorem temp_suffix_rule (fn : Option String) :
    ((splitext (fn.getD "")).2 ≠ "" →
      suffixFor fn = (splitext (fn.getD "")).2) ∧
    ((splitext (fn.getD "")).2 = "" → suffixFor fn = ".webm") ∧
    (∀ (f : UploadFile) (env : Env), env.createFails = false →
      (upload_audio (some f) env).2.tempSuffix =
        some (suffixFor f.filename)) := by
  refine ⟨fun h => ?_, fun h => ?_, fun f env hc => ?_⟩
  · simp [suffixFor, h]
  · simp [suffixFor, h]
  · simp [upload_audio, hc]

theorem temp_suffix_rule_w :
    suffixFor (some "clip.mp3") = (splitext ((some "clip.mp3").getD "")).2 ∧
    suffixFor (some "clip") = ".webm" ∧
    (upload_audio (some ⟨some "clip.mp3", []⟩)
        ⟨false, false, TranscribeOutcome.timeout,
          CompletionOutcome.rateLimit, false, false, false⟩).2.tempSuffix =
      some (suffixFor (some "clip.mp3")) :=
  ⟨(temp_suffix_rule (some "clip.mp3")).1 (by decide),
    (temp_suffix_rule (some "clip")).2.1 (by decide),
    (temp_suffix_rule (some "clip.mp3")).2.2 _ _ rfl⟩

/-- Claim C8: on the successful-transcription path, a datagram send is
issued if and only if the OSC client was constructed and the gpt output is
non-empty; an unconfigured client and an empty message are both silent
no-ops. -/
theorem datagram_iff_configured_and_nonempty (f : UploadFile) (env : Env)
    (r : WhisperResult)
    (hc : env.createFails = false) (hw : env.writeFails = false)
    (ht : env.transcribe = TranscribeOutcome.success r) :
    (upload_audio (some f) env).2.oscCall.isSome = true ↔
      env.oscConfigured = true ∧
        gptOutputOf (do_transcribe r) env.completion ≠ "" := by
  cases hosc : env.oscConfigured with
  | false => simp [upload_audio, hc, tryBlock, hw, ht, hosc]
  | true =>
    by_cases hg : gptOutputOf (do_transcribe r) env.completion = "" <;>
      simp [upload_audio, hc, tryBlock, hw, ht, hosc, hg]

theorem datagram_iff_configured_and_nonempty_w :
    (upload_audio (some ⟨some "a.ogg", []⟩)
        ⟨false, false, TranscribeOutcome.success (some (some "hi")),
          CompletionOutcome.rateLimit, true, false, false⟩).2.oscCall.isSome
      = true :=
  (datagram_iff_configured_and_nonempty _ _ _ rfl rfl rfl).mpr
    ⟨rfl, by decide⟩

/-- Claim C9: a backend result of None, and a backend mapping lacking the
text key, are both treated as a successful transcription with the empty
string as transcript, taking the empty-transcript path rather than the
failure path; and the transcript is always the backend text with
surrounding whitespace stripped. -/
theorem missing_text_is_empty_success :
    (∀ s : String, do_transcribe (some (some s)) = pyStrip s) ∧
    do_transcribe none = "" ∧
    do_transcribe (some none) = "" ∧
    (∀ (f : UploadFile) (env : Env), env.createFails = false →
      env.writeFails = false →
      (env.transcribe = TranscribeOutcome.success none ∨
        env.transcribe = TranscribeOutcome.success (some none)) →
      (upload_audio (some f) env).1 = Except.ok ⟨200, Body.ok "" ""⟩ ∧
      (upload_audio (some f) env).2.completionCalled = false) := by
  have h0 : do_transcribe none = "" := rfl
  have h1 : do_transcribe (some none) = "" := rfl
  refine ⟨fun s => rfl, h0, h1, fun f env hc hw ht => ?_⟩
  cases ht with
  | inl h => simp [upload_audio, hc, tryBlock, hw, h, h0, gptOutputOf]
  | inr h => simp [upload_audio, hc, tryBlock, hw, h, h1, gptOutputOf]

theorem missing_text_is_empty_success_w :
    (upload_audio (some ⟨some "a.m4a", []⟩)
        ⟨false, false, TranscribeOutcome.success none,
          CompletionOutcome.unknownFailure, true, false, false⟩).1 =
      Except.ok ⟨200, Body.ok "" ""⟩ :=
  (missing_text_is_empty_success.2.2.2 _ _ rfl rfl (Or.inl rfl)).1

/-- Claim C10: whenever a datagram is sent, it is addressed to the OSC path
/chat_output and its payload is exactly the gpt output of the 200 response
returned for that request. -/
theorem broadcast_payload_matches_response (file : Option UploadFile)
    (env : Env) (p m : String)
    (h : (upload_audio file env).2.oscCall = some (p, m)) :
    p = "/chat_output" ∧
    ∃ t, (upload_audio file env).1 = Except.ok ⟨200, Body.ok t m⟩ := by
  cases file with
  | none => simp [upload_audio, noEffects] at h
  | some f =>
    cases env with
    | mk c w tr comp oc os rm =>
      cases c with
      | true => simp [upload_audio, noEffects] at h
      | false =>
        cases w with
        | true => simp [upload_audio, tryBlock] at h
        | false =>
          cases tr with
          | timeout => simp [upload_audio, tryBlock] at h
          | failure => simp [upload_audio, tryBlock] at h
          | success r =>
            cases oc with
            | false => simp [upload_audio, tryBlock] at h
            | true =>
              by_cases hg : gptOutputOf (do_transcribe r) comp = ""
              · simp [upload_audio, tryBlock, hg] at h
              · simp [upload_audio, tryBlock, hg] at h
                obtain ⟨hp, hm⟩ := h
                refine ⟨hp.symm, ⟨do_transcribe r, ?_⟩⟩
                simp [upload_audio, tryBlock, hm]

theorem broadcast_payload_matches_response_w :
    ("/chat_output" : String) = "/chat_output" ∧
    ∃ t, (upload_audio (some ⟨some "a.flac", []⟩)
        ⟨false, false, TranscribeOutcome.success (some (some "hi")),
          CompletionOutcome.unknownFailure, true, false, false⟩).1 =
      Except.ok ⟨200, Body.ok t unknownErrorMsg⟩ :=
  broadcast_payload_matches_response _ _ "/chat_output" unknownErrorMsg
    (by decide)

example : do_transcribe (some (some " hello ")) = "hello" := by decide
example : splitext "clip.mp3" = ("clip", ".mp3") := by decide
example : splitext ".bashrc" = (".bashrc", "") := by decide
example : splitext "archive.tar.gz" = ("archive.tar", ".gz") := by decide
example : suffixFor none = ".webm" := by decide
example : suffixFor (some "a.webm") = ".webm" := by decide
example : suffixFor (some "noext") = ".webm" := by decide
example :
    (upload_audio (some ⟨some "a.webm", [1, 2]⟩)
      ⟨false, false, TranscribeOutcome.success (some (some "hi")),
        CompletionOutcome.rateLimit, true, false, false⟩).1 =
    Except.ok ⟨200, Body.ok "hi" rateLimitedMsg⟩ := by decide

end RebornVoiceServer
